import Mathlib

/-!
Log facade and application loop of the Zephyr project template.

Shallow embedding of `app/utils/log/logger.h` and `app/main/src/main.c`.

The C preprocessor conditionals of `logger.h` become `if` expressions over a
record of Kconfig switches; the log statements become functions that extend a
trace of observable events.  The external collaborators (the kernel's leveled
logging primitives, its printf-style formatter, the sleep primitive and the
stack-space query) are not part of the repository; they are modelled from the
specification and marked as such.
-/

namespace ZephyrApp

/-! ## Build configuration -/

/-- The Kconfig switches that `logger.h` tests with `IS_ENABLED`. -/
structure Kconfig where
  CONFIG_APP_DEV_BUILD : Bool
  CONFIG_APP_LOG_WITH_FILELINE : Bool
  CONFIG_THREAD_STACK_INFO : Bool
  CONFIG_INIT_STACKS : Bool
deriving DecidableEq

/-- Properties of the C toolchain that the header depends on: whether the
compiler predefines `__FILE_NAME__` (tested by `#ifndef __FILE_NAME__`), and the
widths of `size_t` and of `unsigned int` (the declaration `size_t _unused` and
the cast `(unsigned)_unused`). -/
structure Toolchain where
  defines_FILE_NAME : Bool
  SIZE_BITS : Nat
  UINT_BITS : Nat
deriving DecidableEq

/-- A place in a source file where one of the log statements is written:
the values of `__FILE__` and `__LINE__` there. -/
structure CallSite where
  file : String
  line : Nat
deriving DecidableEq

/-! ## External collaborators -/

/-- Modelled from the spec: the four severities of the logging backend
("four severity-ordered emission primitives (info/warn/error/debug)"). -/
inductive Severity where
  | err
  | wrn
  | inf
  | dbg
deriving DecidableEq

def LOG_LEVEL_NONE : Nat := 0
def LOG_LEVEL_ERR : Nat := 1
def LOG_LEVEL_WRN : Nat := 2
def LOG_LEVEL_INF : Nat := 3
def LOG_LEVEL_DBG : Nat := 4

/-- Modelled from the spec: the numeric level of a severity; a larger number is
a less severe message, so that the threshold `debug` admits all four levels and
the threshold `info` suppresses only `debug`. -/
def Severity.level : Severity → Nat
  | .err => LOG_LEVEL_ERR
  | .wrn => LOG_LEVEL_WRN
  | .inf => LOG_LEVEL_INF
  | .dbg => LOG_LEVEL_DBG

/-- One variadic argument of a printf-style call. -/
inductive Arg where
  | str (s : String)
  | int (i : Int)
  | uint (u : Nat)
deriving DecidableEq

/-- Modelled from the spec: printf-style formatting of the backend, over the
characters of the format.  The specifiers `%s`, `%d`, `%u` consume the next
argument when it has the matching type, `%%` is a percent sign, every other
character is copied.  A specifier without a matching argument is undefined
behaviour in C ("a mismatch is undefined behavior in the backend"); the model
copies it unchanged. -/
def vformat : List Char → List Arg → List Char
  | [], _ => []
  | '%' :: '%' :: cs, as => '%' :: vformat cs as
  | '%' :: 's' :: cs, Arg.str s :: as => s.data ++ vformat cs as
  | '%' :: 'd' :: cs, Arg.int i :: as => (toString i).data ++ vformat cs as
  | '%' :: 'u' :: cs, Arg.uint u :: as => (toString u).data ++ vformat cs as
  | c :: cs, as => c :: vformat cs as

/-- Modelled from the spec: the text the backend produces for a format string
and its arguments. -/
def cbprintf (fmt : String) (args : List Arg) : String :=
  String.mk (vformat fmt.data args)

/-- What the program does that can be observed from outside: a message handed to
the logging backend, a suspension of the thread, a query of the stack space. -/
inductive Event where
  | log (sev : Severity) (text : String)
  | sleep (ms : Nat)
  | stackQuery
deriving DecidableEq

/-- The observable history of a run, oldest event first. -/
abbrev Trace := List Event

/-- The messages of a trace: severity and text of every backend call. -/
def messages : Trace → List (Severity × String)
  | [] => []
  | Event.log sev text :: t => (sev, text) :: messages t
  | _ :: t => messages t

/-- The suspensions of a trace, in milliseconds. -/
def sleeps : Trace → List Nat
  | [] => []
  | Event.sleep ms :: t => ms :: sleeps t
  | _ :: t => sleeps t

/-- The number of stack-space queries in a trace. -/
def stackQueries : Trace → Nat
  | [] => 0
  | Event.stackQuery :: t => stackQueries t + 1
  | _ :: t => stackQueries t

/-- A registered log module: its name and its compile-time level. -/
structure LogModule where
  name : String
  level : Nat
deriving DecidableEq

/-- Modelled from the spec: `LOG_MODULE_REGISTER(name, level)` binds the
translation unit to a named logging channel with a compile-time threshold. -/
def LOG_MODULE_REGISTER (name : String) (level : Nat) : LogModule :=
  { name := name, level := level }

/-- Modelled from the spec: a leveled emission primitive of the backend.  A
message whose severity is within the module's threshold is formatted and handed
to the sink; any other call has no effect. -/
def Z_LOG (m : LogModule) (sev : Severity) (fmt : String) (args : List Arg)
    (t : Trace) : Trace :=
  if sev.level ≤ m.level then t ++ [Event.log sev (cbprintf fmt args)] else t

/-- Modelled from the spec: the backend primitive for severity info. -/
def LOG_INF (m : LogModule) (fmt : String) (args : List Arg) (t : Trace) : Trace :=
  Z_LOG m Severity.inf fmt args t

/-- Modelled from the spec: the backend primitive for severity warn. -/
def LOG_WRN (m : LogModule) (fmt : String) (args : List Arg) (t : Trace) : Trace :=
  Z_LOG m Severity.wrn fmt args t

/-- Modelled from the spec: the backend primitive for severity error. -/
def LOG_ERR (m : LogModule) (fmt : String) (args : List Arg) (t : Trace) : Trace :=
  Z_LOG m Severity.err fmt args t

/-- Modelled from the spec: the backend primitive for severity debug. -/
def LOG_DBG (m : LogModule) (fmt : String) (args : List Arg) (t : Trace) : Trace :=
  Z_LOG m Severity.dbg fmt args t

/-- Modelled from the spec: the last component of a path, which is what a
compiler that predefines `__FILE_NAME__` expands it to. -/
def lastComponent : List Char → List Char
  | [] => []
  | c :: cs => if '/' ∈ cs then lastComponent cs else if c = '/' then cs else c :: cs

/-- The basename of a source path. -/
def basename (path : String) : String :=
  String.mk (lastComponent path.data)

/-! ## logger.h -/

/-- Lines 12-16 of logger.h: the level the module registers with. -/
def APP_LOG_LEVEL (cfg : Kconfig) : Nat :=
  if cfg.CONFIG_APP_DEV_BUILD then LOG_LEVEL_DBG else LOG_LEVEL_INF

/-- Lines 18-20 of logger.h: `__FILE_NAME__` is the compiler's own when it
predefines one, and `__FILE__` otherwise. -/
def __FILE_NAME__ (tc : Toolchain) (site : CallSite) : String :=
  if tc.defines_FILE_NAME then basename site.file else site.file

/-- Lines 23 and 26 of logger.h: the format string handed to the backend. -/
def _LOGF_FMT (cfg : Kconfig) (fmt : String) : String :=
  if cfg.CONFIG_APP_LOG_WITH_FILELINE then "[%s:%d] " ++ fmt else fmt

/-- Lines 24 and 27 of logger.h: the arguments put in front of the caller's. -/
def _LOGF_ARGS (cfg : Kconfig) (tc : Toolchain) (site : CallSite) : List Arg :=
  if cfg.CONFIG_APP_LOG_WITH_FILELINE then
    [Arg.str (__FILE_NAME__ tc site), Arg.int (Int.ofNat site.line)]
  else []

/-- Line 30 of logger.h. -/
def LOG_INFO (cfg : Kconfig) (tc : Toolchain) (m : LogModule) (site : CallSite)
    (fmt : String) (va : List Arg) (t : Trace) : Trace :=
  LOG_INF m (_LOGF_FMT cfg fmt) (_LOGF_ARGS cfg tc site ++ va) t

/-- Line 31 of logger.h. -/
def LOG_WARNING (cfg : Kconfig) (tc : Toolchain) (m : LogModule) (site : CallSite)
    (fmt : String) (va : List Arg) (t : Trace) : Trace :=
  LOG_WRN m (_LOGF_FMT cfg fmt) (_LOGF_ARGS cfg tc site ++ va) t

/-- Line 32 of logger.h. -/
def LOG_ERROR (cfg : Kconfig) (tc : Toolchain) (m : LogModule) (site : CallSite)
    (fmt : String) (va : List Arg) (t : Trace) : Trace :=
  LOG_ERR m (_LOGF_FMT cfg fmt) (_LOGF_ARGS cfg tc site ++ va) t

/-- Line 33 of logger.h. -/
def LOG_DEBUG (cfg : Kconfig) (tc : Toolchain) (m : LogModule) (site : CallSite)
    (fmt : String) (va : List Arg) (t : Trace) : Trace :=
  LOG_DBG m (_LOGF_FMT cfg fmt) (_LOGF_ARGS cfg tc site ++ va) t

/-- The four entry points of the log facade. -/
inductive EntryPoint where
  | info
  | warning
  | error
  | debug
deriving DecidableEq

/-- The backend severity with the same name as the entry point. -/
def EntryPoint.severity : EntryPoint → Severity
  | .info => Severity.inf
  | .warning => Severity.wrn
  | .error => Severity.err
  | .debug => Severity.dbg

/-- One invocation of an entry point at a call site. -/
def EntryPoint.invoke (ep : EntryPoint) (cfg : Kconfig) (tc : Toolchain) (m : LogModule)
    (site : CallSite) (fmt : String) (va : List Arg) (t : Trace) : Trace :=
  match ep with
  | .info => LOG_INFO cfg tc m site fmt va t
  | .warning => LOG_WARNING cfg tc m site fmt va t
  | .error => LOG_ERROR cfg tc m site fmt va t
  | .debug => LOG_DEBUG cfg tc m site fmt va t

/-- Modelled from the spec: the kernel's stack-space query for the current
thread, `k_thread_stack_space_get(k_current_get(), &_unused)`.  Given the content
of the variable the pointer refers to, it yields the return code (0 on success)
and the content of the variable afterwards. -/
structure Kernel where
  k_thread_stack_space_get : Nat → Int × Nat

/-- Lines 35-52 of logger.h.  The local `_unused` is a `size_t`, the logged value
is `(unsigned)_unused`; both are naturals reduced modulo the width of the type. -/
def LOG_STACK_INFO (cfg : Kconfig) (tc : Toolchain) (m : LogModule) (k : Kernel)
    (site : CallSite) (t : Trace) : Trace :=
  if cfg.CONFIG_THREAD_STACK_INFO && cfg.CONFIG_INIT_STACKS then
    let _unused0 : Nat := 0
    let r := k.k_thread_stack_space_get _unused0
    let _unused : Nat := r.2 % 2 ^ tc.SIZE_BITS
    let t1 := t ++ [Event.stackQuery]
    if r.1 = 0 then
      LOG_WRN m (_LOGF_FMT cfg "STACK unused: %u bytes")
        (_LOGF_ARGS cfg tc site ++ [Arg.uint (_unused % 2 ^ tc.UINT_BITS)]) t1
    else t1
  else t

/-! ## main.c -/

/-- Line 5 of main.c. -/
def APP_LOG_MODULE : String := "MAIN"

/-- Line 7 of main.c: `LOG_MODULE_REGISTER(APP_LOG_MODULE, APP_LOG_LEVEL)`. -/
def mainModule (cfg : Kconfig) : LogModule :=
  LOG_MODULE_REGISTER APP_LOG_MODULE (APP_LOG_LEVEL cfg)

def MSEC_PER_SEC : Nat := 1000

/-- Modelled from the spec: a timeout of the kernel, in milliseconds. -/
structure k_timeout_t where
  ms : Nat
deriving DecidableEq

/-- Modelled from the spec: the timeout of `s` seconds. -/
def K_SECONDS (s : Nat) : k_timeout_t :=
  { ms := s * MSEC_PER_SEC }

/-- Modelled from the spec: the kernel's "sleep for N seconds" primitive; the
thread is suspended for the timeout and then resumes. -/
def k_sleep (timeout : k_timeout_t) (t : Trace) : Trace :=
  t ++ [Event.sleep timeout.ms]

/-- The statements of `main`, by line of main.c: the startup message (13), the
debug message (17), the sleep (18), the return (21), and the state after the
return. -/
inductive PC where
  | logInfo
  | logDebug
  | sleep
  | ret
  | exited
deriving DecidableEq

/-- A state of `main`: the statement to run next, the events so far, and the
value returned, if `main` has returned. -/
structure MainState where
  pc : PC
  trace : Trace
  exitCode : Option Int
deriving DecidableEq

/-- The kind of a step of `main`. -/
inductive StepKind where
  | emitInfo
  | emitDebug
  | sleep
  | ret
deriving DecidableEq

/-- The controlling expression of `while (1)`, line 15. -/
def whileCond : Int := 1

/-- Where control goes when the loop condition is tested: into the body when it
is non-zero, to the statement after the loop otherwise. -/
def loopTest : PC :=
  if whileCond ≠ 0 then PC.logDebug else PC.ret

/-- The state in which `main` is entered. -/
def mainInit : MainState :=
  { pc := PC.logInfo, trace := [], exitCode := none }

/-- One step of `main` (lines 11-22 of main.c), compiled with `cfg` and `tc` from
the path `file`.  A state after the return has no step. -/
def mainStep (cfg : Kconfig) (tc : Toolchain) (file : String) (s : MainState) :
    Option (StepKind × MainState) :=
  match s.pc with
  | PC.logInfo =>
      some (StepKind.emitInfo,
        { s with pc := loopTest,
                 trace := LOG_INFO cfg tc (mainModule cfg) ⟨file, 13⟩ "Hello, Zephyr!" [] s.trace })
  | PC.logDebug =>
      some (StepKind.emitDebug,
        { s with pc := PC.sleep,
                 trace := LOG_DEBUG cfg tc (mainModule cfg) ⟨file, 17⟩ "Main loop iteration" []
                   s.trace })
  | PC.sleep =>
      some (StepKind.sleep, { s with pc := loopTest, trace := k_sleep (K_SECONDS 5) s.trace })
  | PC.ret =>
      some (StepKind.ret, { s with pc := PC.exited, exitCode := some 0 })
  | PC.exited => none

/-- Run `main` for at most `fuel` steps. -/
def mainExec (cfg : Kconfig) (tc : Toolchain) (file : String) : Nat → MainState → MainState
  | 0, s => s
  | fuel + 1, s =>
      match mainStep cfg tc file s with
      | some (_, s1) => mainExec cfg tc file fuel s1
      | none => s

/-- The state of `main` after the startup message and `n` completed iterations
of the loop: one step for line 13 and two steps for each iteration. -/
def mainAfter (cfg : Kconfig) (tc : Toolchain) (file : String) (n : Nat) : MainState :=
  mainExec cfg tc file (1 + 2 * n) mainInit

/-- The states `main` can be in: the entry state and every state a step leads
to from one of them. -/
inductive Reachable (cfg : Kconfig) (tc : Toolchain) (file : String) : MainState → Prop where
  | init : Reachable cfg tc file mainInit
  | step (s s1 : MainState) (k : StepKind) :
      Reachable cfg tc file s → mainStep cfg tc file s = some (k, s1) →
      Reachable cfg tc file s1

/-! ## Concrete builds, call sites and definitions used in the statements -/

/-- A release build with file and line in every message. -/
def releaseFileLine : Kconfig :=
  { CONFIG_APP_DEV_BUILD := false, CONFIG_APP_LOG_WITH_FILELINE := true,
    CONFIG_THREAD_STACK_INFO := true, CONFIG_INIT_STACKS := true }

/-- A release build without file and line. -/
def releasePlain : Kconfig :=
  { CONFIG_APP_DEV_BUILD := false, CONFIG_APP_LOG_WITH_FILELINE := false,
    CONFIG_THREAD_STACK_INFO := false, CONFIG_INIT_STACKS := true }

/-- A development build without file and line. -/
def devPlain : Kconfig :=
  { CONFIG_APP_DEV_BUILD := true, CONFIG_APP_LOG_WITH_FILELINE := false,
    CONFIG_THREAD_STACK_INFO := true, CONFIG_INIT_STACKS := true }

/-- A 64-bit toolchain whose compiler predefines `__FILE_NAME__`. -/
def lp64 : Toolchain :=
  { defines_FILE_NAME := true, SIZE_BITS := 64, UINT_BITS := 32 }

/-- A 32-bit toolchain whose compiler does not predefine `__FILE_NAME__`. -/
def ilp32Old : Toolchain :=
  { defines_FILE_NAME := false, SIZE_BITS := 32, UINT_BITS := 32 }

/-- The path main.c is compiled from in the examples. -/
def mainPath : String := "/workdir/app/main/src/main.c"

/-- The text in front of a message in file-line mode, for a call site. -/
def fileLineTag (tc : Toolchain) (site : CallSite) : String :=
  "[" ++ __FILE_NAME__ tc site ++ ":" ++ toString site.line ++ "] "

/-- An entry point is emitted in a build when every invocation adds one message,
in every module registered with the build's level. -/
def Emitted (cfg : Kconfig) (ep : EntryPoint) : Prop :=
  ∀ (tc : Toolchain) (name : String) (site : CallSite) (fmt : String) (va : List Arg)
    (t : Trace),
    (messages (ep.invoke cfg tc (LOG_MODULE_REGISTER name (APP_LOG_LEVEL cfg)) site fmt va t)).length
      = (messages t).length + 1

/-- An entry point is suppressed in a build when no invocation changes the
trace. -/
def Suppressed (cfg : Kconfig) (ep : EntryPoint) : Prop :=
  ∀ (tc : Toolchain) (name : String) (site : CallSite) (fmt : String) (va : List Arg)
    (t : Trace),
    ep.invoke cfg tc (LOG_MODULE_REGISTER name (APP_LOG_LEVEL cfg)) site fmt va t = t

/-- A kernel whose stack-space query succeeds and stores `n`. -/
def kernelWith (n : Nat) : Kernel :=
  { k_thread_stack_space_get := fun _ => (0, n) }

/-- A kernel whose stack-space query fails with code `rc` and stores `n`. -/
def kernelFailing (rc : Int) (n : Nat) : Kernel :=
  { k_thread_stack_space_get := fun _ => (rc, n) }

/-- The events of the startup statement, line 13. -/
def startupEvents (cfg : Kconfig) (tc : Toolchain) (file : String) : Trace :=
  LOG_INFO cfg tc (mainModule cfg) { file := file, line := 13 } "Hello, Zephyr!" [] []

/-- The events of one iteration of the loop, lines 17 and 18. -/
def iterationEvents (cfg : Kconfig) (tc : Toolchain) (file : String) : Trace :=
  k_sleep (K_SECONDS 5)
    (LOG_DEBUG cfg tc (mainModule cfg) { file := file, line := 17 } "Main loop iteration" [] [])

/-- The state in the middle of iteration `n + 1`: the debug statement has run,
the sleep has not. -/
def midIteration (cfg : Kconfig) (tc : Toolchain) (file : String) (n : Nat) : MainState :=
  { pc := PC.sleep,
    trace := LOG_DEBUG cfg tc (mainModule cfg) { file := file, line := 17 }
      "Main loop iteration" [] (mainAfter cfg tc file n).trace,
    exitCode := none }

/-! ## Formatting lemmas -/

theorem cbprintf_fileline (f : String) (l : Int) (fmt : String) (va : List Arg) :
    cbprintf ("[%s:%d] " ++ fmt) (Arg.str f :: Arg.int l :: va)
      = "[" ++ f ++ ":" ++ toString l ++ "] " ++ cbprintf fmt va := by
  apply String.ext
  simp [cbprintf, vformat, String.data_append]

theorem cbprintf_stack (u : Nat) :
    cbprintf "STACK unused: %u bytes" [Arg.uint u]
      = "STACK unused: " ++ toString u ++ " bytes" := by
  apply String.ext
  simp [cbprintf, vformat, String.data_append]

/-- The text of a message of the facade in file-line mode. -/
theorem logf_text_fileline (cfg : Kconfig) (tc : Toolchain) (site : CallSite)
    (fmt : String) (va : List Arg) (h : cfg.CONFIG_APP_LOG_WITH_FILELINE = true) :
    cbprintf (_LOGF_FMT cfg fmt) (_LOGF_ARGS cfg tc site ++ va)
      = fileLineTag tc site ++ cbprintf fmt va := by
  simp only [_LOGF_FMT, _LOGF_ARGS, h, if_true, List.cons_append, List.nil_append,
    cbprintf_fileline, fileLineTag]
  rfl

/-- The text of a message of the facade without file-line mode. -/
theorem logf_text_plain (cfg : Kconfig) (tc : Toolchain) (site : CallSite)
    (fmt : String) (va : List Arg) (h : cfg.CONFIG_APP_LOG_WITH_FILELINE = false) :
    cbprintf (_LOGF_FMT cfg fmt) (_LOGF_ARGS cfg tc site ++ va) = cbprintf fmt va := by
  simp [_LOGF_FMT, _LOGF_ARGS, h]

/-- Every entry point is one call of the backend primitive of its severity. -/
theorem invoke_eq_Z_LOG (ep : EntryPoint) (cfg : Kconfig) (tc : Toolchain) (m : LogModule)
    (site : CallSite) (fmt : String) (va : List Arg) (t : Trace) :
    ep.invoke cfg tc m site fmt va t
      = Z_LOG m ep.severity (_LOGF_FMT cfg fmt) (_LOGF_ARGS cfg tc site ++ va) t := by
  cases ep <;> rfl

theorem messages_append (t u : Trace) : messages (t ++ u) = messages t ++ messages u := by
  induction t with
  | nil => rfl
  | cons e t ih => cases e <;> simp [messages, ih]

/-- The warning level is within the threshold of every build. -/
theorem wrn_le_APP_LOG_LEVEL (cfg : Kconfig) : Severity.wrn.level ≤ APP_LOG_LEVEL cfg := by
  cases h : cfg.CONFIG_APP_DEV_BUILD <;> simp [APP_LOG_LEVEL, h, Severity.level,
    LOG_LEVEL_WRN, LOG_LEVEL_INF, LOG_LEVEL_DBG]

/-- The text of a message of the facade, in both modes. -/
theorem logf_text (cfg : Kconfig) (tc : Toolchain) (site : CallSite)
    (fmt : String) (va : List Arg) :
    cbprintf (_LOGF_FMT cfg fmt) (_LOGF_ARGS cfg tc site ++ va)
      = if cfg.CONFIG_APP_LOG_WITH_FILELINE then fileLineTag tc site ++ cbprintf fmt va
        else cbprintf fmt va := by
  cases hf : cfg.CONFIG_APP_LOG_WITH_FILELINE
  · simp [logf_text_plain cfg tc site fmt va hf]
  · simp [logf_text_fileline cfg tc site fmt va hf]

/-- An entry point whose level is within the threshold adds one backend call. -/
theorem invoke_of_le (ep : EntryPoint) (cfg : Kconfig) (tc : Toolchain)
    (name : String) (site : CallSite) (fmt : String) (va : List Arg) (t : Trace)
    (h : ep.severity.level ≤ APP_LOG_LEVEL cfg) :
    ep.invoke cfg tc (LOG_MODULE_REGISTER name (APP_LOG_LEVEL cfg)) site fmt va t
      = t ++ [Event.log ep.severity
          (cbprintf (_LOGF_FMT cfg fmt) (_LOGF_ARGS cfg tc site ++ va))] := by
  rw [invoke_eq_Z_LOG]
  simp only [Z_LOG, LOG_MODULE_REGISTER, h, if_true]

/-- An entry point whose level is outside the threshold does nothing. -/
theorem invoke_of_not_le (ep : EntryPoint) (cfg : Kconfig) (tc : Toolchain)
    (name : String) (site : CallSite) (fmt : String) (va : List Arg) (t : Trace)
    (h : ¬ ep.severity.level ≤ APP_LOG_LEVEL cfg) :
    ep.invoke cfg tc (LOG_MODULE_REGISTER name (APP_LOG_LEVEL cfg)) site fmt va t = t := by
  rw [invoke_eq_Z_LOG]
  simp [Z_LOG, LOG_MODULE_REGISTER, h]

/-! ## The four entry points -/

/-- C1, as stated, fails in file-line mode: in a release build with file-line
mode the info threshold includes LOG_INFO, the one backend call of
`LOG_INFO("Hello, Zephyr!")` at line 13 carries the file and the line in front,
and so its body is not the formatted input. -/
theorem entry_body_differs_in_fileline_mode :
    EntryPoint.info.severity.level ≤ APP_LOG_LEVEL releaseFileLine ∧
    EntryPoint.info.invoke releaseFileLine lp64
        (LOG_MODULE_REGISTER "MAIN" (APP_LOG_LEVEL releaseFileLine))
        { file := mainPath, line := 13 } "Hello, Zephyr!" [] []
      = [Event.log Severity.inf "[main.c:13] Hello, Zephyr!"] ∧
    "[main.c:13] Hello, Zephyr!" ≠ cbprintf "Hello, Zephyr!" [] := by
  decide

/-- C1 (amended): for each of the four entry points, every build configuration,
format string and argument list: if the configured threshold includes the entry
point's level, one invocation adds exactly one backend call to the trace, at the
same-named severity; its body is the formatted input when file-line mode is
disabled, and the file-line tag followed by the formatted input when it is
enabled. -/
theorem entry_included_emits_once (ep : EntryPoint) (cfg : Kconfig) (tc : Toolchain)
    (name : String) (site : CallSite) (fmt : String) (va : List Arg) (t : Trace)
    (h : ep.severity.level ≤ APP_LOG_LEVEL cfg) :
    ep.invoke cfg tc (LOG_MODULE_REGISTER name (APP_LOG_LEVEL cfg)) site fmt va t
      = t ++ [Event.log ep.severity
          (if cfg.CONFIG_APP_LOG_WITH_FILELINE then fileLineTag tc site ++ cbprintf fmt va
           else cbprintf fmt va)] := by
  rw [invoke_of_le ep cfg tc name site fmt va t h, logf_text]

theorem entry_included_emits_once_witness :
    EntryPoint.warning.severity.level ≤ APP_LOG_LEVEL releasePlain ∧
    EntryPoint.warning.invoke releasePlain lp64
        (LOG_MODULE_REGISTER "MAIN" (APP_LOG_LEVEL releasePlain))
        { file := mainPath, line := 40 } "low battery: %d%%" [Arg.int 7] [Event.sleep 5000]
      = [Event.sleep 5000] ++ [Event.log EntryPoint.warning.severity
          (if releasePlain.CONFIG_APP_LOG_WITH_FILELINE then
             fileLineTag lp64 { file := mainPath, line := 40 }
               ++ cbprintf "low battery: %d%%" [Arg.int 7]
           else cbprintf "low battery: %d%%" [Arg.int 7])] :=
  ⟨by decide, entry_included_emits_once EntryPoint.warning releasePlain lp64 "MAIN"
    { file := mainPath, line := 40 } "low battery: %d%%" [Arg.int 7] [Event.sleep 5000]
    (by decide)⟩

/-- C2: for each of the four entry points, every format string and argument
list: if the configured threshold excludes the entry point's level, one
invocation makes no backend call and leaves the trace, and so the sequence of
emitted messages, unchanged. -/
theorem entry_excluded_is_noop (ep : EntryPoint) (cfg : Kconfig) (tc : Toolchain)
    (name : String) (site : CallSite) (fmt : String) (va : List Arg) (t : Trace)
    (h : ¬ ep.severity.level ≤ APP_LOG_LEVEL cfg) :
    ep.invoke cfg tc (LOG_MODULE_REGISTER name (APP_LOG_LEVEL cfg)) site fmt va t = t ∧
    messages (ep.invoke cfg tc (LOG_MODULE_REGISTER name (APP_LOG_LEVEL cfg)) site fmt va t)
      = messages t := by
  have e := invoke_of_not_le ep cfg tc name site fmt va t h
  exact ⟨e, by rw [e]⟩

theorem entry_excluded_is_noop_witness :
    ¬ EntryPoint.debug.severity.level ≤ APP_LOG_LEVEL releasePlain ∧
    EntryPoint.debug.invoke releasePlain lp64
        (LOG_MODULE_REGISTER "MAIN" (APP_LOG_LEVEL releasePlain))
        { file := mainPath, line := 17 } "Main loop iteration" []
        [Event.log Severity.inf "Hello, Zephyr!"]
      = [Event.log Severity.inf "Hello, Zephyr!"] :=
  ⟨by decide, (entry_excluded_is_noop EntryPoint.debug releasePlain lp64 "MAIN"
    { file := mainPath, line := 17 } "Main loop iteration" []
    [Event.log Severity.inf "Hello, Zephyr!"] (by decide)).1⟩

/-! ## The threshold -/

theorem emitted_of_le (cfg : Kconfig) (ep : EntryPoint)
    (h : ep.severity.level ≤ APP_LOG_LEVEL cfg) : Emitted cfg ep := by
  intro tc name site fmt va t
  rw [invoke_eq_Z_LOG]
  simp [Z_LOG, LOG_MODULE_REGISTER, h, messages_append, messages]

theorem suppressed_of_not_le (cfg : Kconfig) (ep : EntryPoint)
    (h : ¬ ep.severity.level ≤ APP_LOG_LEVEL cfg) : Suppressed cfg ep := by
  intro tc name site fmt va t
  rw [invoke_eq_Z_LOG]
  simp [Z_LOG, LOG_MODULE_REGISTER, h]

theorem not_emitted_of_suppressed (cfg : Kconfig) (ep : EntryPoint)
    (h : Suppressed cfg ep) : ¬ Emitted cfg ep := by
  intro he
  have h1 := he lp64 "MAIN" { file := "", line := 0 } "" [] []
  rw [h lp64 "MAIN" { file := "", line := 0 } "" [] []] at h1
  simp [messages] at h1

theorem emitted_iff_le (cfg : Kconfig) (ep : EntryPoint) :
    Emitted cfg ep ↔ ep.severity.level ≤ APP_LOG_LEVEL cfg := by
  constructor
  · intro he
    by_contra hn
    exact not_emitted_of_suppressed cfg ep (suppressed_of_not_le cfg ep hn) he
  · exact emitted_of_le cfg ep

/-- C3: the threshold depends on the dev-build flag alone.  With dev-build
enabled it is debug and all four entry points are emitted; with dev-build
disabled it is info, LOG_DEBUG is suppressed and LOG_INFO, LOG_WARNING and
LOG_ERROR are emitted.  Two builds that agree on the dev-build flag, whatever
their file-line flag and stack-info prerequisites, have the same threshold and
emit the same entry points. -/
theorem threshold_from_dev_build_only (cfg : Kconfig) :
    (cfg.CONFIG_APP_DEV_BUILD = true →
      APP_LOG_LEVEL cfg = LOG_LEVEL_DBG ∧ ∀ ep : EntryPoint, Emitted cfg ep) ∧
    (cfg.CONFIG_APP_DEV_BUILD = false →
      APP_LOG_LEVEL cfg = LOG_LEVEL_INF ∧ Suppressed cfg EntryPoint.debug ∧
      ¬ Emitted cfg EntryPoint.debug ∧
      Emitted cfg EntryPoint.info ∧ Emitted cfg EntryPoint.warning ∧
      Emitted cfg EntryPoint.error) ∧
    (∀ cfg2 : Kconfig, cfg2.CONFIG_APP_DEV_BUILD = cfg.CONFIG_APP_DEV_BUILD →
      APP_LOG_LEVEL cfg2 = APP_LOG_LEVEL cfg ∧
      ∀ ep : EntryPoint, (Emitted cfg2 ep ↔ Emitted cfg ep)) := by
  refine ⟨?_, ?_, ?_⟩
  · intro h
    have hl : APP_LOG_LEVEL cfg = LOG_LEVEL_DBG := by simp [APP_LOG_LEVEL, h]
    refine ⟨hl, fun ep => emitted_of_le cfg ep ?_⟩
    rw [hl]
    cases ep <;> decide
  · intro h
    have hl : APP_LOG_LEVEL cfg = LOG_LEVEL_INF := by simp [APP_LOG_LEVEL, h]
    have hd : Suppressed cfg EntryPoint.debug :=
      suppressed_of_not_le cfg _ (by rw [hl]; decide)
    exact ⟨hl, hd, not_emitted_of_suppressed cfg _ hd,
      emitted_of_le cfg _ (by rw [hl]; decide), emitted_of_le cfg _ (by rw [hl]; decide),
      emitted_of_le cfg _ (by rw [hl]; decide)⟩
  · intro cfg2 h
    have hl : APP_LOG_LEVEL cfg2 = APP_LOG_LEVEL cfg := by simp [APP_LOG_LEVEL, h]
    refine ⟨hl, fun ep => ?_⟩
    rw [emitted_iff_le, emitted_iff_le, hl]

theorem threshold_from_dev_build_only_witness :
    (APP_LOG_LEVEL devPlain = LOG_LEVEL_DBG ∧ ∀ ep : EntryPoint, Emitted devPlain ep) ∧
    (APP_LOG_LEVEL releaseFileLine = LOG_LEVEL_INF ∧
      Suppressed releaseFileLine EntryPoint.debug ∧
      ¬ Emitted releaseFileLine EntryPoint.debug ∧
      Emitted releaseFileLine EntryPoint.info ∧ Emitted releaseFileLine EntryPoint.warning ∧
      Emitted releaseFileLine EntryPoint.error) ∧
    (APP_LOG_LEVEL releasePlain = APP_LOG_LEVEL releaseFileLine ∧
      ∀ ep : EntryPoint, (Emitted releasePlain ep ↔ Emitted releaseFileLine ep)) :=
  ⟨(threshold_from_dev_build_only devPlain).1 rfl,
   (threshold_from_dev_build_only releaseFileLine).2.1 rfl,
   (threshold_from_dev_build_only releaseFileLine).2.2 releasePlain rfl⟩

/-! ## File and line -/

/-- C4, as stated, fails when the compiler does not predefine `__FILE_NAME__`:
the header then uses `__FILE__`, and the message of `LOG_INFO("Hello, Zephyr!")`
at line 13 of main.c carries the whole path, not the basename. -/
theorem file_is_path_without_FILE_NAME :
    EntryPoint.info.invoke releaseFileLine ilp32Old
        (LOG_MODULE_REGISTER "MAIN" (APP_LOG_LEVEL releaseFileLine))
        { file := mainPath, line := 13 } "Hello, Zephyr!" [] []
      = [Event.log Severity.inf "[/workdir/app/main/src/main.c:13] Hello, Zephyr!"] ∧
    "[" ++ basename mainPath ++ ":" ++ toString 13 ++ "] " ++ cbprintf "Hello, Zephyr!" []
      = "[main.c:13] Hello, Zephyr!" ∧
    "[/workdir/app/main/src/main.c:13] Hello, Zephyr!" ≠ "[main.c:13] Hello, Zephyr!" := by
  decide

/-- C4 (amended): for every emitted message of any of the four entry points, at
any call site: in file-line mode the emitted text is "[<file>:<line>] " followed
by the original formatted text, where <line> is the line of the call site and
<file> is the basename of its source file when the compiler predefines
`__FILE_NAME__` and the value of `__FILE__` otherwise; without file-line mode the
emitted text is the original formatted text, with nothing in front. -/
theorem emitted_text_fileline (ep : EntryPoint) (cfg : Kconfig) (tc : Toolchain)
    (name : String) (site : CallSite) (fmt : String) (va : List Arg) (t : Trace)
    (h : ep.severity.level ≤ APP_LOG_LEVEL cfg) :
    (cfg.CONFIG_APP_LOG_WITH_FILELINE = true →
      ep.invoke cfg tc (LOG_MODULE_REGISTER name (APP_LOG_LEVEL cfg)) site fmt va t
        = t ++ [Event.log ep.severity
            ("[" ++ (if tc.defines_FILE_NAME then basename site.file else site.file)
              ++ ":" ++ toString site.line ++ "] " ++ cbprintf fmt va)]) ∧
    (cfg.CONFIG_APP_LOG_WITH_FILELINE = false →
      ep.invoke cfg tc (LOG_MODULE_REGISTER name (APP_LOG_LEVEL cfg)) site fmt va t
        = t ++ [Event.log ep.severity (cbprintf fmt va)]) := by
  rw [invoke_of_le ep cfg tc name site fmt va t h]
  constructor
  · intro hf
    rw [logf_text_fileline cfg tc site fmt va hf]
    rfl
  · intro hf
    rw [logf_text_plain cfg tc site fmt va hf]

theorem emitted_text_fileline_witness :
    EntryPoint.error.severity.level ≤ APP_LOG_LEVEL releaseFileLine ∧
    EntryPoint.error.invoke releaseFileLine lp64
        (LOG_MODULE_REGISTER "MAIN" (APP_LOG_LEVEL releaseFileLine))
        { file := mainPath, line := 21 } "sensor %s failed: %d" [Arg.str "imu", Arg.int (-5)] []
      = [] ++ [Event.log EntryPoint.error.severity
          ("[" ++ (if lp64.defines_FILE_NAME then
                basename (CallSite.mk mainPath 21).file else (CallSite.mk mainPath 21).file)
            ++ ":" ++ toString (CallSite.mk mainPath 21).line ++ "] "
            ++ cbprintf "sensor %s failed: %d" [Arg.str "imu", Arg.int (-5)])] :=
  ⟨by decide, (emitted_text_fileline EntryPoint.error releaseFileLine lp64 "MAIN"
    { file := mainPath, line := 21 } "sensor %s failed: %d" [Arg.str "imu", Arg.int (-5)] []
    (by decide)).1 rfl⟩

/-! ## The stack usage report -/

/-- With both prerequisites the report is the query followed, on success, by a
warning with the count converted to `unsigned`. -/
theorem LOG_STACK_INFO_enabled (cfg : Kconfig) (tc : Toolchain) (m : LogModule) (k : Kernel)
    (site : CallSite) (t : Trace)
    (h1 : cfg.CONFIG_THREAD_STACK_INFO = true) (h2 : cfg.CONFIG_INIT_STACKS = true) :
    LOG_STACK_INFO cfg tc m k site t
      = if (k.k_thread_stack_space_get 0).1 = 0 then
          LOG_WARNING cfg tc m site "STACK unused: %u bytes"
            [Arg.uint ((k.k_thread_stack_space_get 0).2 % 2 ^ tc.SIZE_BITS % 2 ^ tc.UINT_BITS)]
            (t ++ [Event.stackQuery])
        else t ++ [Event.stackQuery] := by
  simp [LOG_STACK_INFO, h1, h2, LOG_WARNING]

/-- C5, as stated, fails where `size_t` is wider than `unsigned`: on a 64-bit
toolchain a successful query with 2^32 + 5 unused bytes, a value of `size_t`,
is reported as 5 bytes. -/
theorem stack_count_truncated_on_lp64 :
    2 ^ 32 + 5 < 2 ^ lp64.SIZE_BITS ∧
    LOG_STACK_INFO devPlain lp64 (LOG_MODULE_REGISTER "MAIN" (APP_LOG_LEVEL devPlain))
        (kernelWith (2 ^ 32 + 5)) { file := mainPath, line := 14 } []
      = [Event.stackQuery, Event.log Severity.wrn "STACK unused: 5 bytes"] ∧
    "STACK unused: 5 bytes" ≠ "STACK unused: " ++ toString (2 ^ 32 + 5) ++ " bytes" := by
  decide

/-- C5 (amended): when thread-stack bookkeeping and stack-pattern initialization
are both enabled and the stack-space query succeeds with unused-byte count n (a
value of `size_t`), the query is followed by exactly one message, at warning
level, formatted as LOG_WARNING formats (file-line tag present exactly in
file-line mode); the byte count in it is n reduced modulo 2 to the width of
`unsigned`, which is n whenever n fits in an `unsigned`. -/
theorem stack_report_on_success (cfg : Kconfig) (tc : Toolchain) (name : String) (k : Kernel)
    (site : CallSite) (t : Trace) (n : Nat)
    (h1 : cfg.CONFIG_THREAD_STACK_INFO = true) (h2 : cfg.CONFIG_INIT_STACKS = true)
    (hn : n < 2 ^ tc.SIZE_BITS) (hk : k.k_thread_stack_space_get 0 = (0, n)) :
    LOG_STACK_INFO cfg tc (LOG_MODULE_REGISTER name (APP_LOG_LEVEL cfg)) k site t
      = t ++ [Event.stackQuery, Event.log Severity.wrn
          ((if cfg.CONFIG_APP_LOG_WITH_FILELINE then fileLineTag tc site else "")
            ++ "STACK unused: " ++ toString (n % 2 ^ tc.UINT_BITS) ++ " bytes")] ∧
    LOG_STACK_INFO cfg tc (LOG_MODULE_REGISTER name (APP_LOG_LEVEL cfg)) k site t
      = LOG_WARNING cfg tc (LOG_MODULE_REGISTER name (APP_LOG_LEVEL cfg)) site
          "STACK unused: %u bytes" [Arg.uint (n % 2 ^ tc.UINT_BITS)] (t ++ [Event.stackQuery]) ∧
    (messages (LOG_STACK_INFO cfg tc (LOG_MODULE_REGISTER name (APP_LOG_LEVEL cfg)) k site t)).length
      = (messages t).length + 1 ∧
    (n < 2 ^ tc.UINT_BITS → n % 2 ^ tc.UINT_BITS = n) := by
  have hw := wrn_le_APP_LOG_LEVEL cfg
  have e : LOG_STACK_INFO cfg tc (LOG_MODULE_REGISTER name (APP_LOG_LEVEL cfg)) k site t
      = LOG_WARNING cfg tc (LOG_MODULE_REGISTER name (APP_LOG_LEVEL cfg)) site
          "STACK unused: %u bytes" [Arg.uint (n % 2 ^ tc.UINT_BITS)] (t ++ [Event.stackQuery]) := by
    rw [LOG_STACK_INFO_enabled cfg tc _ k site t h1 h2, hk]
    simp [Nat.mod_eq_of_lt hn]
  have e2 : LOG_WARNING cfg tc (LOG_MODULE_REGISTER name (APP_LOG_LEVEL cfg)) site
          "STACK unused: %u bytes" [Arg.uint (n % 2 ^ tc.UINT_BITS)] (t ++ [Event.stackQuery])
      = t ++ [Event.stackQuery, Event.log Severity.wrn
          ((if cfg.CONFIG_APP_LOG_WITH_FILELINE then fileLineTag tc site else "")
            ++ "STACK unused: " ++ toString (n % 2 ^ tc.UINT_BITS) ++ " bytes")] := by
    simp only [LOG_WARNING, LOG_WRN, Z_LOG, LOG_MODULE_REGISTER, hw, if_true]
    cases hf : cfg.CONFIG_APP_LOG_WITH_FILELINE
    · rw [logf_text_plain cfg tc site _ _ hf, cbprintf_stack]
      simp
    · rw [logf_text_fileline cfg tc site _ _ hf, cbprintf_stack]
      simp [String.append_assoc]
  refine ⟨e.trans e2, e, ?_, fun hu => Nat.mod_eq_of_lt hu⟩
  rw [e.trans e2]
  simp [messages_append, messages]

theorem stack_report_on_success_witness :
    LOG_STACK_INFO releaseFileLine lp64
        (LOG_MODULE_REGISTER "MAIN" (APP_LOG_LEVEL releaseFileLine)) (kernelWith 1384)
        { file := mainPath, line := 14 } []
      = [Event.stackQuery, Event.log Severity.wrn "[main.c:14] STACK unused: 1384 bytes"] :=
  (stack_report_on_success releaseFileLine lp64 "MAIN" (kernelWith 1384)
    { file := mainPath, line := 14 } [] 1384 rfl rfl (by decide) rfl).1.trans (by decide)

/-- C6: when thread-stack bookkeeping or stack-pattern initialization is
disabled, the report returns the trace it was given, in every configuration of
the dev-build and file-line flags and whatever the kernel's query would answer:
no message is emitted, no stack-space query is made, and there is no failure. -/
theorem stack_report_disabled_is_noop (cfg : Kconfig) (tc : Toolchain) (m : LogModule)
    (k : Kernel) (site : CallSite) (t : Trace)
    (h : cfg.CONFIG_THREAD_STACK_INFO = false ∨ cfg.CONFIG_INIT_STACKS = false) :
    LOG_STACK_INFO cfg tc m k site t = t ∧
    messages (LOG_STACK_INFO cfg tc m k site t) = messages t ∧
    stackQueries (LOG_STACK_INFO cfg tc m k site t) = stackQueries t := by
  have e : LOG_STACK_INFO cfg tc m k site t = t := by
    rcases h with h | h <;> simp [LOG_STACK_INFO, h]
  rw [e]
  exact ⟨rfl, rfl, rfl⟩

theorem stack_report_disabled_is_noop_witness :
    LOG_STACK_INFO releasePlain lp64 (LOG_MODULE_REGISTER "MAIN" (APP_LOG_LEVEL releasePlain))
        (kernelWith 1384) { file := mainPath, line := 14 }
        [Event.log Severity.inf "Hello, Zephyr!"]
      = [Event.log Severity.inf "Hello, Zephyr!"] :=
  (stack_report_disabled_is_noop releasePlain lp64 _ (kernelWith 1384)
    { file := mainPath, line := 14 } [Event.log Severity.inf "Hello, Zephyr!"]
    (Or.inl rfl)).1

/-- C10: with both prerequisites enabled, the report emits a message if and only
if the stack-space query returns 0.  For every non-zero return code the trace
gains the query and nothing else: no message is emitted, whatever the query left
in the variable, so neither that value nor the initial 0 is logged, and the
caller is given no error. -/
theorem stack_report_iff_query_succeeds (cfg : Kconfig) (tc : Toolchain) (name : String)
    (k : Kernel) (site : CallSite) (t : Trace)
    (h1 : cfg.CONFIG_THREAD_STACK_INFO = true) (h2 : cfg.CONFIG_INIT_STACKS = true) :
    ((messages (LOG_STACK_INFO cfg tc (LOG_MODULE_REGISTER name (APP_LOG_LEVEL cfg)) k site t)).length
        = (messages t).length + 1 ↔ (k.k_thread_stack_space_get 0).1 = 0) ∧
    ((k.k_thread_stack_space_get 0).1 ≠ 0 →
      LOG_STACK_INFO cfg tc (LOG_MODULE_REGISTER name (APP_LOG_LEVEL cfg)) k site t
        = t ++ [Event.stackQuery] ∧
      messages (LOG_STACK_INFO cfg tc (LOG_MODULE_REGISTER name (APP_LOG_LEVEL cfg)) k site t)
        = messages t) := by
  have hw := wrn_le_APP_LOG_LEVEL cfg
  rw [LOG_STACK_INFO_enabled cfg tc _ k site t h1 h2]
  by_cases hr : (k.k_thread_stack_space_get 0).1 = 0
  · simp [hr, LOG_WARNING, LOG_WRN, Z_LOG, LOG_MODULE_REGISTER, hw, messages_append, messages]
  · simp [hr, messages_append, messages]

theorem stack_report_iff_query_succeeds_witness :
    LOG_STACK_INFO devPlain lp64 (LOG_MODULE_REGISTER "MAIN" (APP_LOG_LEVEL devPlain))
        (kernelFailing (-134) 77) { file := mainPath, line := 14 } []
      = [] ++ [Event.stackQuery] ∧
    messages (LOG_STACK_INFO devPlain lp64 (LOG_MODULE_REGISTER "MAIN" (APP_LOG_LEVEL devPlain))
        (kernelFailing (-134) 77) { file := mainPath, line := 14 } [])
      = messages [] :=
  (stack_report_iff_query_succeeds devPlain lp64 "MAIN" (kernelFailing (-134) 77)
    { file := mainPath, line := 14 } [] rfl rfl).2 (by decide)

/-! ## The application loop -/

theorem loopTest_eq : loopTest = PC.logDebug := by decide

theorem Z_LOG_append (m : LogModule) (sev : Severity) (fmt : String) (args : List Arg)
    (t : Trace) : Z_LOG m sev fmt args t = t ++ Z_LOG m sev fmt args [] := by
  unfold Z_LOG
  split <;> simp

theorem mainExec_add (cfg : Kconfig) (tc : Toolchain) (file : String) (a b : Nat)
    (s : MainState) :
    mainExec cfg tc file (a + b) s = mainExec cfg tc file b (mainExec cfg tc file a s) := by
  induction a generalizing s with
  | zero => simp [mainExec]
  | succ a ih =>
    rw [Nat.succ_add]
    simp only [mainExec]
    cases hs : mainStep cfg tc file s with
    | none =>
      cases b with
      | zero => rfl
      | succ b => simp [mainExec, hs]
    | some p => exact ih p.2

/-- Two steps from the head of the loop are one iteration. -/
theorem mainExec_iteration (cfg : Kconfig) (tc : Toolchain) (file : String) (t : Trace) :
    mainExec cfg tc file 2 { pc := PC.logDebug, trace := t, exitCode := none }
      = { pc := PC.logDebug, trace := t ++ iterationEvents cfg tc file, exitCode := none } := by
  simp only [mainExec, mainStep, loopTest_eq, iterationEvents, k_sleep, LOG_DEBUG, LOG_DBG]
  rw [Z_LOG_append]
  simp

/-- The state after `n` iterations: at the head of the loop, not returned, with
the startup events followed by `n` times the events of an iteration. -/
theorem mainAfter_eq (cfg : Kconfig) (tc : Toolchain) (file : String) (n : Nat) :
    mainAfter cfg tc file n
      = { pc := PC.logDebug,
          trace := startupEvents cfg tc file
            ++ (List.replicate n (iterationEvents cfg tc file)).flatten,
          exitCode := none } := by
  induction n with
  | zero =>
    simp [mainAfter, mainExec, mainStep, mainInit, loopTest_eq, startupEvents]
  | succ n ih =>
    have e : 1 + 2 * (n + 1) = (1 + 2 * n) + 2 := by ring
    unfold mainAfter at ih ⊢
    rw [e, mainExec_add, ih, mainExec_iteration, List.replicate_succ', List.flatten_append]
    simp

theorem startupEvents_eq (cfg : Kconfig) (tc : Toolchain) (file : String) :
    startupEvents cfg tc file
      = [Event.log Severity.inf
          ((if cfg.CONFIG_APP_LOG_WITH_FILELINE then
              fileLineTag tc { file := file, line := 13 } else "") ++ "Hello, Zephyr!")] := by
  have h : EntryPoint.info.severity.level ≤ APP_LOG_LEVEL cfg := by
    cases hd : cfg.CONFIG_APP_DEV_BUILD <;> simp [APP_LOG_LEVEL, hd] <;> decide
  have := invoke_of_le EntryPoint.info cfg tc APP_LOG_MODULE
    { file := file, line := 13 } "Hello, Zephyr!" [] [] h
  simp only [EntryPoint.invoke, List.nil_append] at this
  rw [startupEvents, mainModule, this, logf_text]
  have hc : cbprintf "Hello, Zephyr!" [] = "Hello, Zephyr!" := by decide
  cases hf : cfg.CONFIG_APP_LOG_WITH_FILELINE <;> simp [hc, EntryPoint.severity]

theorem iterationEvents_dev (cfg : Kconfig) (tc : Toolchain) (file : String)
    (hd : cfg.CONFIG_APP_DEV_BUILD = true) :
    iterationEvents cfg tc file
      = [Event.log Severity.dbg
          ((if cfg.CONFIG_APP_LOG_WITH_FILELINE then
              fileLineTag tc { file := file, line := 17 } else "") ++ "Main loop iteration"),
         Event.sleep 5000] := by
  have h : EntryPoint.debug.severity.level ≤ APP_LOG_LEVEL cfg := by
    simp [APP_LOG_LEVEL, hd]; decide
  have := invoke_of_le EntryPoint.debug cfg tc APP_LOG_MODULE
    { file := file, line := 17 } "Main loop iteration" [] [] h
  simp only [EntryPoint.invoke, List.nil_append] at this
  rw [iterationEvents, mainModule, this, logf_text]
  have hc : cbprintf "Main loop iteration" [] = "Main loop iteration" := by decide
  cases hf : cfg.CONFIG_APP_LOG_WITH_FILELINE <;>
    simp [hc, EntryPoint.severity, k_sleep, K_SECONDS, MSEC_PER_SEC]

theorem iterationEvents_release (cfg : Kconfig) (tc : Toolchain) (file : String)
    (hd : cfg.CONFIG_APP_DEV_BUILD = false) :
    iterationEvents cfg tc file = [Event.sleep 5000] := by
  have h : ¬ EntryPoint.debug.severity.level ≤ APP_LOG_LEVEL cfg := by
    simp [APP_LOG_LEVEL, hd]; decide
  have := invoke_of_not_le EntryPoint.debug cfg tc APP_LOG_MODULE
    { file := file, line := 17 } "Main loop iteration" [] [] h
  simp only [EntryPoint.invoke] at this
  rw [iterationEvents, mainModule, this]
  simp [k_sleep, K_SECONDS, MSEC_PER_SEC]

theorem mainStep_init (cfg : Kconfig) (tc : Toolchain) (file : String) :
    mainStep cfg tc file mainInit = some (StepKind.emitInfo, mainAfter cfg tc file 0) := by
  simp [mainAfter, mainExec, mainStep, mainInit]

theorem mainStep_mainAfter (cfg : Kconfig) (tc : Toolchain) (file : String) (n : Nat) :
    mainStep cfg tc file (mainAfter cfg tc file n)
      = some (StepKind.emitDebug, midIteration cfg tc file n) := by
  rw [midIteration, mainAfter_eq]
  simp [mainStep]

theorem mainStep_midIteration (cfg : Kconfig) (tc : Toolchain) (file : String) (n : Nat) :
    mainStep cfg tc file (midIteration cfg tc file n)
      = some (StepKind.sleep, mainAfter cfg tc file (n + 1)) := by
  have e : 1 + 2 * (n + 1) = (1 + 2 * n) + 2 := by ring
  have h : mainAfter cfg tc file (n + 1)
      = mainExec cfg tc file 2 (mainAfter cfg tc file n) := by
    unfold mainAfter
    rw [e, mainExec_add]
  rw [h, midIteration, mainAfter_eq]
  simp [mainExec, mainStep]

/-- The reachable states of `main` are the entry state, the states at the head of
the loop and the states between the debug statement and the sleep. -/
theorem reachable_cases (cfg : Kconfig) (tc : Toolchain) (file : String) (s : MainState)
    (h : Reachable cfg tc file s) :
    s = mainInit ∨ ∃ n, s = mainAfter cfg tc file n ∨ s = midIteration cfg tc file n := by
  induction h with
  | init => exact Or.inl rfl
  | step s s1 k _ hstep ih =>
    right
    rcases ih with rfl | ⟨n, rfl | rfl⟩
    · rw [mainStep_init] at hstep
      exact ⟨0, Or.inl (by injection hstep with h; injection h with _ h2; exact h2.symm)⟩
    · rw [mainStep_mainAfter] at hstep
      exact ⟨n, Or.inr (by injection hstep with h; injection h with _ h2; exact h2.symm)⟩
    · rw [mainStep_midIteration] at hstep
      exact ⟨n + 1, Or.inl (by injection hstep with h; injection h with _ h2; exact h2.symm)⟩

/-- The state after `n` iterations is a reachable state. -/
theorem reachable_mainAfter (cfg : Kconfig) (tc : Toolchain) (file : String) (n : Nat) :
    Reachable cfg tc file (mainAfter cfg tc file n) := by
  induction n with
  | zero => exact Reachable.step _ _ _ Reachable.init (mainStep_init cfg tc file)
  | succ n ih =>
    exact Reachable.step _ _ _ (Reachable.step _ _ _ ih (mainStep_mainAfter cfg tc file n))
      (mainStep_midIteration cfg tc file n)

theorem flatten_replicate_pair (a b : Event) (n i : Nat) (h : i < n) :
    (List.replicate n [a, b]).flatten[2 * i]? = some a ∧
    (List.replicate n [a, b]).flatten[2 * i + 1]? = some b := by
  induction n generalizing i with
  | zero => omega
  | succ n ih =>
    cases i with
    | zero => simp [List.replicate_succ]
    | succ i =>
      have := ih i (by omega)
      have e : 2 * (i + 1) = 2 * i + 1 + 1 := by ring
      simp only [List.replicate_succ, List.flatten_cons, e, List.cons_append, List.nil_append,
        List.getElem?_cons_succ]
      exact this

theorem messages_flatten_replicate_sleep (n ms : Nat) :
    messages (List.replicate n [Event.sleep ms]).flatten = [] := by
  induction n with
  | zero => rfl
  | succ n ih =>
    show messages (Event.sleep ms :: (List.replicate n [Event.sleep ms]).flatten) = []
    simp only [messages]
    exact ih

theorem sleeps_flatten_replicate_sleep (n ms : Nat) :
    sleeps (List.replicate n [Event.sleep ms]).flatten = List.replicate n ms := by
  induction n with
  | zero => rfl
  | succ n ih =>
    show sleeps (Event.sleep ms :: (List.replicate n [Event.sleep ms]).flatten) = _
    simp only [sleeps, List.replicate_succ]
    rw [ih]

theorem messages_flatten_replicate_pair (sev : Severity) (text : String) (n ms : Nat) :
    messages (List.replicate n [Event.log sev text, Event.sleep ms]).flatten
      = List.replicate n (sev, text) := by
  induction n with
  | zero => rfl
  | succ n ih => simp [List.replicate_succ, messages, ih]

theorem mainAfter_trace_dev_plain (cfg : Kconfig) (tc : Toolchain) (file : String) (n : Nat)
    (hd : cfg.CONFIG_APP_DEV_BUILD = true) (hf : cfg.CONFIG_APP_LOG_WITH_FILELINE = false) :
    (mainAfter cfg tc file n).trace
      = Event.log Severity.inf "Hello, Zephyr!" ::
          (List.replicate n
            [Event.log Severity.dbg "Main loop iteration", Event.sleep 5000]).flatten := by
  rw [mainAfter_eq, startupEvents_eq, iterationEvents_dev cfg tc file hd]
  simp [hf]

theorem mainAfter_trace_release (cfg : Kconfig) (tc : Toolchain) (file : String) (n : Nat)
    (hd : cfg.CONFIG_APP_DEV_BUILD = false) :
    (mainAfter cfg tc file n).trace
      = Event.log Severity.inf
          ((if cfg.CONFIG_APP_LOG_WITH_FILELINE then
              fileLineTag tc { file := file, line := 13 } else "") ++ "Hello, Zephyr!") ::
          (List.replicate n [Event.sleep 5000]).flatten := by
  rw [mainAfter_eq, startupEvents_eq, iterationEvents_release cfg tc file hd]
  rfl

theorem midIteration_trace_release (cfg : Kconfig) (tc : Toolchain) (file : String) (n : Nat)
    (hd : cfg.CONFIG_APP_DEV_BUILD = false) :
    (midIteration cfg tc file n).trace = (mainAfter cfg tc file n).trace := by
  have h : ¬ EntryPoint.debug.severity.level ≤ APP_LOG_LEVEL cfg := by
    simp [APP_LOG_LEVEL, hd]; decide
  exact invoke_of_not_le EntryPoint.debug cfg tc APP_LOG_MODULE
    { file := file, line := 17 } "Main loop iteration" [] _ h

/-- The startup message and the loop message differ, with or without the
file-line tag: the texts have different lengths. -/
theorem startup_text_ne_loop_text (cfg : Kconfig) (tc : Toolchain) (file : String) :
    (if cfg.CONFIG_APP_LOG_WITH_FILELINE then
        fileLineTag tc { file := file, line := 13 } else "") ++ "Hello, Zephyr!"
      ≠ (if cfg.CONFIG_APP_LOG_WITH_FILELINE then
        fileLineTag tc { file := file, line := 17 } else "") ++ "Main loop iteration" := by
  intro h
  have hl := congrArg String.length h
  have h13 : (toString (13 : Nat)).length = 2 := by decide
  have h17 : (toString (17 : Nat)).length = 2 := by decide
  have ha : ("Hello, Zephyr!" : String).length = 14 := by decide
  have hb : ("Main loop iteration" : String).length = 19 := by decide
  cases hf : cfg.CONFIG_APP_LOG_WITH_FILELINE
  · simp [hf, ha, hb] at hl
  · simp only [hf, if_true, fileLineTag, __FILE_NAME__, String.length_append, h13, h17, ha,
      hb] at hl
    omega

/-! ### Traces of the application loop -/

/-- C7: with the debug threshold (dev-build enabled) and file-line mode
disabled, for every n `main` reaches the state after n completed iterations, and
its trace there is the
info message "Hello, Zephyr!" followed by n repetitions of the debug message
"Main loop iteration" and a suspension of 5000 ms.  So the bodies after three
iterations are "Hello, Zephyr!" and three times "Main loop iteration", the
startup message occurs exactly once in every such trace, and between two
consecutive debug messages there is exactly one event, a suspension of 5000 ms. -/
theorem main_trace_dev_plain (cfg : Kconfig) (tc : Toolchain) (file : String)
    (hd : cfg.CONFIG_APP_DEV_BUILD = true) (hf : cfg.CONFIG_APP_LOG_WITH_FILELINE = false) :
    (∀ n, Reachable cfg tc file (mainAfter cfg tc file n)) ∧
    (∀ n, (mainAfter cfg tc file n).trace
        = Event.log Severity.inf "Hello, Zephyr!" ::
            (List.replicate n
              [Event.log Severity.dbg "Main loop iteration", Event.sleep 5000]).flatten) ∧
    (messages (mainAfter cfg tc file 3).trace).map Prod.snd
      = ["Hello, Zephyr!", "Main loop iteration", "Main loop iteration",
         "Main loop iteration"] ∧
    (∀ n, (messages (mainAfter cfg tc file n).trace).count (Severity.inf, "Hello, Zephyr!")
      = 1) ∧
    (∀ n i, i + 1 < n →
      (mainAfter cfg tc file n).trace[2 * i + 1]?
        = some (Event.log Severity.dbg "Main loop iteration") ∧
      (mainAfter cfg tc file n).trace[2 * i + 2]? = some (Event.sleep 5000) ∧
      (mainAfter cfg tc file n).trace[2 * i + 3]?
        = some (Event.log Severity.dbg "Main loop iteration")) := by
  have ht := fun n => mainAfter_trace_dev_plain cfg tc file n hd hf
  refine ⟨reachable_mainAfter cfg tc file, ht, ?_, ?_, ?_⟩
  · rw [ht]
    decide
  · intro n
    rw [ht]
    simp only [messages, messages_flatten_replicate_pair]
    rw [List.count_cons_self, List.count_replicate]
    simp
  · intro n i hi
    rw [ht]
    have h0 := flatten_replicate_pair (Event.log Severity.dbg "Main loop iteration")
      (Event.sleep 5000) n i (by omega)
    have h1 := flatten_replicate_pair (Event.log Severity.dbg "Main loop iteration")
      (Event.sleep 5000) n (i + 1) (by omega)
    have e : 2 * (i + 1) = 2 * i + 2 := by ring
    rw [e] at h1
    simp only [List.getElem?_cons_succ]
    exact ⟨h0.1, h0.2, h1.1⟩

theorem main_trace_dev_plain_witness :
    (mainAfter devPlain lp64 mainPath 2).trace
      = Event.log Severity.inf "Hello, Zephyr!" ::
          (List.replicate 2
            [Event.log Severity.dbg "Main loop iteration", Event.sleep 5000]).flatten :=
  (main_trace_dev_plain devPlain lp64 mainPath rfl rfl).2.1 2

/-- C8, as stated, fails in file-line mode: in a release build with file-line
mode the one message `main` emits is the startup message with the file and the
line in front, which is not the text "Hello, Zephyr!". -/
theorem main_release_fileline_startup_tagged :
    releaseFileLine.CONFIG_APP_DEV_BUILD = false ∧
    messages (mainAfter releaseFileLine lp64 mainPath 2).trace
      = [(Severity.inf, "[main.c:13] Hello, Zephyr!")] ∧
    messages (mainAfter releaseFileLine lp64 mainPath 2).trace
      ≠ [(Severity.inf, "Hello, Zephyr!")] := by
  decide

/-- C8 (amended): with the info-only threshold (dev-build disabled), for every
number n of iterations the messages `main` has emitted are exactly one info
message, whose text is "Hello, Zephyr!", with the file-line tag of line 13 in
front in file-line mode, and the trace holds one suspension of 5000 ms per
iteration.  In every reachable state every emitted message is that startup
message: none has debug severity and none has the text of the loop message. -/
theorem main_release_only_startup (cfg : Kconfig) (tc : Toolchain) (file : String)
    (hd : cfg.CONFIG_APP_DEV_BUILD = false) :
    (∀ n, messages (mainAfter cfg tc file n).trace
        = [(Severity.inf,
            (if cfg.CONFIG_APP_LOG_WITH_FILELINE then
                fileLineTag tc { file := file, line := 13 } else "") ++ "Hello, Zephyr!")]) ∧
    (cfg.CONFIG_APP_LOG_WITH_FILELINE = false →
      ∀ n, messages (mainAfter cfg tc file n).trace = [(Severity.inf, "Hello, Zephyr!")]) ∧
    (∀ n, sleeps (mainAfter cfg tc file n).trace = List.replicate n 5000) ∧
    (∀ s, Reachable cfg tc file s → ∀ p ∈ messages s.trace,
      p = (Severity.inf,
            (if cfg.CONFIG_APP_LOG_WITH_FILELINE then
                fileLineTag tc { file := file, line := 13 } else "") ++ "Hello, Zephyr!") ∧
      p.1 ≠ Severity.dbg ∧
      p.2 ≠ (if cfg.CONFIG_APP_LOG_WITH_FILELINE then
                fileLineTag tc { file := file, line := 17 } else "") ++ "Main loop iteration") := by
  have hm : ∀ n, messages (mainAfter cfg tc file n).trace
        = [(Severity.inf,
            (if cfg.CONFIG_APP_LOG_WITH_FILELINE then
                fileLineTag tc { file := file, line := 13 } else "") ++ "Hello, Zephyr!")] := by
    intro n
    rw [mainAfter_trace_release cfg tc file n hd]
    simp only [messages, messages_flatten_replicate_sleep]
  refine ⟨hm, ?_, ?_, ?_⟩
  · intro hf n
    rw [hm, hf]
    rfl
  · intro n
    rw [mainAfter_trace_release cfg tc file n hd]
    simp only [sleeps, sleeps_flatten_replicate_sleep]
  · intro s hs p hp
    have key : p = (Severity.inf,
            (if cfg.CONFIG_APP_LOG_WITH_FILELINE then
                fileLineTag tc { file := file, line := 13 } else "") ++ "Hello, Zephyr!") := by
      rcases reachable_cases cfg tc file s hs with rfl | ⟨n, rfl | rfl⟩
      · simp [mainInit, messages] at hp
      · rw [hm] at hp
        simpa using hp
      · rw [midIteration_trace_release cfg tc file n hd, hm] at hp
        simpa using hp
    refine ⟨key, ?_, ?_⟩
    · rw [key]
      show Severity.inf ≠ Severity.dbg
      decide
    · rw [key]
      exact startup_text_ne_loop_text cfg tc file

theorem main_release_only_startup_witness :
    messages (mainAfter releasePlain ilp32Old mainPath 4).trace
      = [(Severity.inf, "Hello, Zephyr!")] ∧
    sleeps (mainAfter releasePlain ilp32Old mainPath 4).trace = List.replicate 4 5000 :=
  ⟨(main_release_only_startup releasePlain ilp32Old mainPath rfl).2.1 rfl 4,
   (main_release_only_startup releasePlain ilp32Old mainPath rfl).2.2.1 4⟩

/-- The startup statement adds the startup message, in every build. -/
theorem LOG_INFO_startup (cfg : Kconfig) (tc : Toolchain) (file : String) (t : Trace) :
    LOG_INFO cfg tc (mainModule cfg) { file := file, line := 13 } "Hello, Zephyr!" [] t
      = t ++ [Event.log Severity.inf
          ((if cfg.CONFIG_APP_LOG_WITH_FILELINE then
              fileLineTag tc { file := file, line := 13 } else "") ++ "Hello, Zephyr!")] := by
  rw [← startupEvents_eq, startupEvents]
  simp only [LOG_INFO, LOG_INF]
  exact Z_LOG_append _ _ _ _ t

/-- The debug statement of the loop adds the loop message in a dev build and
nothing otherwise. -/
theorem LOG_DEBUG_loop (cfg : Kconfig) (tc : Toolchain) (file : String) (t : Trace) :
    LOG_DEBUG cfg tc (mainModule cfg) { file := file, line := 17 } "Main loop iteration" [] t
      = if cfg.CONFIG_APP_DEV_BUILD then
          t ++ [Event.log Severity.dbg
            ((if cfg.CONFIG_APP_LOG_WITH_FILELINE then
                fileLineTag tc { file := file, line := 17 } else "") ++ "Main loop iteration")]
        else t := by
  cases hd : cfg.CONFIG_APP_DEV_BUILD
  · have h : ¬ EntryPoint.debug.severity.level ≤ APP_LOG_LEVEL cfg := by
      simp [APP_LOG_LEVEL, hd]; decide
    have := invoke_of_not_le EntryPoint.debug cfg tc APP_LOG_MODULE
      { file := file, line := 17 } "Main loop iteration" [] t h
    simp only [EntryPoint.invoke] at this
    rw [mainModule, this]
    simp
  · have h : EntryPoint.debug.severity.level ≤ APP_LOG_LEVEL cfg := by
      simp [APP_LOG_LEVEL, hd]; decide
    have := invoke_of_le EntryPoint.debug cfg tc APP_LOG_MODULE
      { file := file, line := 17 } "Main loop iteration" [] t h
    simp only [EntryPoint.invoke] at this
    rw [mainModule, this, logf_text]
    have hc : cbprintf "Main loop iteration" [] = "Main loop iteration" := by decide
    cases hf : cfg.CONFIG_APP_LOG_WITH_FILELINE <;> simp [hc, EntryPoint.severity]

/-- What is known of every reachable state: `main` has not returned, and the
state is the entry state or is in the loop, before the debug statement or
before the sleep. -/
theorem reachable_inv (cfg : Kconfig) (tc : Toolchain) (file : String) (s : MainState)
    (h : Reachable cfg tc file s) :
    s.exitCode = none ∧ (s = mainInit ∨ s.pc = PC.logDebug ∨ s.pc = PC.sleep) := by
  rcases reachable_cases cfg tc file s h with rfl | ⟨n, rfl | rfl⟩
  · exact ⟨rfl, Or.inl rfl⟩
  · rw [mainAfter_eq]
    exact ⟨rfl, Or.inr (Or.inl rfl)⟩
  · exact ⟨rfl, Or.inr (Or.inr rfl)⟩

/-- C9, as stated, fails at the entry state: the entry state of `main` is
reachable, its one step is the startup message of line 13, which is neither
emit-debug nor sleep, so not every reachable state has a next step of kind
emit-debug or sleep. -/
theorem main_entry_step_is_startup :
    Reachable devPlain lp64 mainPath mainInit ∧
    mainStep devPlain lp64 mainPath mainInit
      = some (StepKind.emitInfo,
          { pc := PC.logDebug, trace := [Event.log Severity.inf "Hello, Zephyr!"],
            exitCode := none }) ∧
    ¬ (∀ s, Reachable devPlain lp64 mainPath s →
        ∃ k s1, mainStep devPlain lp64 mainPath s = some (k, s1) ∧
          (k = StepKind.emitDebug ∨ k = StepKind.sleep)) := by
  have hstep : mainStep devPlain lp64 mainPath mainInit
      = some (StepKind.emitInfo,
          { pc := PC.logDebug, trace := [Event.log Severity.inf "Hello, Zephyr!"],
            exitCode := none }) := by decide
  refine ⟨Reachable.init, hstep, ?_⟩
  intro hall
  obtain ⟨k, s1, hk, hkind⟩ := hall mainInit Reachable.init
  rw [hstep] at hk
  injection hk with hk
  injection hk with hk1 _
  rcases hkind with h | h <;> rw [h] at hk1 <;> cases hk1

/-- C9 (amended): in every build configuration every reachable state of `main`
has a next step, and after it `main` has still not returned.  From the entry
state the step is the startup emit-info, which appends the startup message and
enters the loop.  From every other reachable state the step is emit-debug,
which appends the loop message in a dev build and nothing in a release build
and goes on to the sleep, or it is sleep, which appends a suspension of 5000 ms
and goes back to the debug statement.  No reachable state is at the return
statement or after it, so the exit code, which the return statement would set
to 0, is never set. -/
theorem main_never_returns (cfg : Kconfig) (tc : Toolchain) (file : String) (s : MainState)
    (h : Reachable cfg tc file s) :
    (∃ k s1, mainStep cfg tc file s = some (k, s1) ∧
      Reachable cfg tc file s1 ∧ s1.exitCode = none ∧
      ((s = mainInit ∧ k = StepKind.emitInfo ∧ s1.pc = PC.logDebug ∧
          s1.trace = s.trace ++ [Event.log Severity.inf
            ((if cfg.CONFIG_APP_LOG_WITH_FILELINE then
                fileLineTag tc { file := file, line := 13 } else "") ++ "Hello, Zephyr!")]) ∨
       (s ≠ mainInit ∧ s.pc = PC.logDebug ∧ k = StepKind.emitDebug ∧ s1.pc = PC.sleep ∧
          s1.trace = (if cfg.CONFIG_APP_DEV_BUILD then
            s.trace ++ [Event.log Severity.dbg
              ((if cfg.CONFIG_APP_LOG_WITH_FILELINE then
                  fileLineTag tc { file := file, line := 17 } else "")
                ++ "Main loop iteration")]
            else s.trace)) ∨
       (s ≠ mainInit ∧ s.pc = PC.sleep ∧ k = StepKind.sleep ∧ s1.pc = PC.logDebug ∧
          s1.trace = s.trace ++ [Event.sleep 5000]))) ∧
    s.pc ≠ PC.ret ∧ s.pc ≠ PC.exited ∧ s.exitCode = none ∧
    (∀ r : MainState, r.pc = PC.ret →
      ∃ r1, mainStep cfg tc file r = some (StepKind.ret, r1) ∧ r1.exitCode = some 0) := by
  have hret : ∀ r : MainState, r.pc = PC.ret →
      ∃ r1, mainStep cfg tc file r = some (StepKind.ret, r1) ∧ r1.exitCode = some 0 := by
    intro r hr
    simp [mainStep, hr]
  obtain ⟨hex, hpc⟩ := reachable_inv cfg tc file s h
  rcases hpc with rfl | hpc | hpc
  · refine ⟨⟨StepKind.emitInfo, _, rfl, Reachable.step _ _ _ h rfl, rfl, Or.inl
      ⟨rfl, rfl, loopTest_eq, ?_⟩⟩, by decide, by decide, rfl, hret⟩
    exact LOG_INFO_startup cfg tc file _
  · have hne : s ≠ mainInit := by
      intro hc
      rw [hc] at hpc
      cases hpc
    have hstep : mainStep cfg tc file s
        = some (StepKind.emitDebug,
            { s with pc := PC.sleep,
                     trace := LOG_DEBUG cfg tc (mainModule cfg) { file := file, line := 17 }
                       "Main loop iteration" [] s.trace }) := by
      simp [mainStep, hpc]
    refine ⟨⟨_, _, hstep, Reachable.step _ _ _ h hstep, hex, Or.inr (Or.inl
      ⟨hne, hpc, rfl, rfl, ?_⟩)⟩, by simp [hpc], by simp [hpc], hex, hret⟩
    exact LOG_DEBUG_loop cfg tc file _
  · have hne : s ≠ mainInit := by
      intro hc
      rw [hc] at hpc
      cases hpc
    have hstep : mainStep cfg tc file s
        = some (StepKind.sleep,
            { s with pc := loopTest, trace := k_sleep (K_SECONDS 5) s.trace }) := by
      simp [mainStep, hpc]
    refine ⟨⟨_, _, hstep, Reachable.step _ _ _ h hstep, hex, Or.inr (Or.inr
      ⟨hne, hpc, rfl, loopTest_eq, ?_⟩)⟩, by simp [hpc], by simp [hpc], hex, hret⟩
    simp [k_sleep, K_SECONDS, MSEC_PER_SEC]

theorem main_never_returns_witness :
    Reachable devPlain lp64 mainPath (mainAfter devPlain lp64 mainPath 3) ∧
    (∃ k s1, mainStep devPlain lp64 mainPath (mainAfter devPlain lp64 mainPath 3) = some (k, s1) ∧
      Reachable devPlain lp64 mainPath s1 ∧ s1.exitCode = none) ∧
    (mainAfter devPlain lp64 mainPath 3).pc ≠ PC.ret ∧
    (mainAfter devPlain lp64 mainPath 3).pc ≠ PC.exited ∧
    (mainAfter devPlain lp64 mainPath 3).exitCode = none :=
  have r := main_never_returns devPlain lp64 mainPath (mainAfter devPlain lp64 mainPath 3)
    (reachable_mainAfter devPlain lp64 mainPath 3)
  ⟨reachable_mainAfter devPlain lp64 mainPath 3,
   r.1.imp fun _ hk => hk.imp fun _ hs => ⟨hs.1, hs.2.1, hs.2.2.1⟩,
   r.2.1, r.2.2.1, r.2.2.2.1⟩

end ZephyrApp
